import Mathlib

/-!
Verification of the tee-worker-pre-compute pipeline.

This file gives a shallow embedding, in Lean 4, of the Rust sources of the
pre-compute stage (src/compute/errors.rs, utils/env_utils.rs,
utils/hash_utils.rs, pre_compute_args.rs, pre_compute_app.rs, signer.rs,
app_runner.rs and src/api/worker_api.rs), together with theorems settling
the frozen claims about that code.

Modelling conventions:
- machine bytes are Nat values (with explicit bounds where they matter);
- fallible Rust code returning Result is embedded as Except;
- Rust panics (unwrap / expect on a failed parse) are embedded as the
  Option value none wrapped around the whole result, so a function that can
  panic returns Option (Except ...) and none means the process aborts;
- the process environment is an explicit structure of Option String fields
  (none models an unset variable; the empty string models a set-but-empty
  variable, which get_env_var_or_error also rejects);
- external library calls that are not part of this repository (SHA-256 and
  Keccak digests, AES block en/decryption, base64 decoding, multiaddress
  parsing, elliptic-curve key parsing and signing, the HTTP transport, the
  filesystem) enter the embedding as explicit function parameters; the
  structure built on top of them (CBC chaining, PKCS#7 padding, checksum
  string comparison, gateway iteration, cause selection) is translated from
  the source.
-/

/-- Embeds ReplicateStatusCause from src/compute/errors.rs: the closed set of
failure causes of the pre-compute stage. -/
inductive ReplicateStatusCause where
  | PreComputeAtLeastOneInputFileUrlMissing
  | PreComputeDatasetChecksumMissing
  | PreComputeDatasetDecryptionFailed
  | PreComputeDatasetDownloadFailed
  | PreComputeDatasetFilenameMissing
  | PreComputeDatasetKeyMissing
  | PreComputeDatasetUrlMissing
  | PreComputeFailedUnknownIssue
  | PreComputeInvalidTeeSignature
  | PreComputeIsDatasetRequiredMissing
  | PreComputeInputFileDownloadFailed
  | PreComputeInputFilesNumberMissing
  | PreComputeInvalidDatasetChecksum
  | PreComputeOutputFolderNotFound
  | PreComputeOutputPathMissing
  | PreComputeSavingPlainDatasetFailed
  | PreComputeTaskIdMissing
  | PreComputeTeeChallengePrivateKeyMissing
  | PreComputeWorkerAddressMissing
deriving DecidableEq, Repr

/-- Embeds ExitMode from src/compute/app_runner.rs. -/
inductive ExitMode where
  | Success
  | ReportedFailure
  | UnreportedFailure
  | InitializationFailure
deriving DecidableEq, Repr

/-- The i32 value assigned to each ExitMode variant in the source
(repr(i32) with explicit discriminants); main exits with this code. -/
def exitCode : ExitMode → Int
  | .Success => 0
  | .ReportedFailure => 1
  | .UnreportedFailure => 2
  | .InitializationFailure => 3

/-- Embeds get_env_var_or_error from src/compute/utils/env_utils.rs.
The environment lookup itself is the Option String argument: none is an
unset variable, some v a set one. The source accepts the value only when
it is non-empty and otherwise returns the given cause. -/
def getEnvVarOrError (envValue : Option String)
    (statusCauseIfMissing : ReplicateStatusCause) :
    Except ReplicateStatusCause String :=
  match envValue with
  | some value => if value = "" then .error statusCauseIfMissing else .ok value
  | none => .error statusCauseIfMissing

/-- The process environment read by the pre-compute stage, one field per
TeeSessionEnvironmentVariable of src/compute/utils/env_utils.rs that
read_args and the signer consult; the indexed IEXEC_INPUT_FILE_URL_i
family is a function of the index. -/
structure Env where
  iexecPreComputeOut : Option String
  isDatasetRequired : Option String
  iexecDatasetUrl : Option String
  iexecDatasetKey : Option String
  iexecDatasetChecksum : Option String
  iexecDatasetFilename : Option String
  iexecInputFilesNumber : Option String
  inputFileUrl : Nat → Option String
  iexecTaskId : Option String
  signWorkerAddress : Option String
  signTeeChallengePrivateKey : Option String

/-- Embeds PreComputeArgs from src/compute/pre_compute_args.rs. -/
structure PreComputeArgs where
  output_dir : String
  is_dataset_required : Bool
  encrypted_dataset_url : Option String
  encrypted_dataset_base64_key : Option String
  encrypted_dataset_checksum : Option String
  plain_dataset_filename : Option String
  input_files : List String
deriving DecidableEq, Repr

/-- Models str::parse::<bool> from Rust: exactly the strings "true" and
"false" parse. read_args applies it after to_lowercase. -/
def parseRustBool (s : String) : Option Bool :=
  if s = "true" then some true
  else if s = "false" then some false
  else none

/-- Value of a list of decimal digit characters, or none if the list is
empty or contains a non-digit. -/
def decDigitsToNat : List Char → Option Nat
  | [] => none
  | l =>
    if l.all (fun c => '0' ≤ c && c ≤ '9') then
      some (l.foldl (fun acc c => acc * 10 + (c.toNat - '0'.toNat)) 0)
    else none

/-- Models str::parse::<usize> from Rust (64-bit usize): an optional leading
plus sign, then one or more decimal digits, rejecting values that overflow
u64. -/
def parseRustUsize (s : String) : Option Nat :=
  let digits :=
    match s.toList with
    | '+' :: rest => decDigitsToNat rest
    | l => decDigitsToNat l
  match digits with
  | some n => if n < 2 ^ 64 then some n else none
  | none => none

/-- Models str::to_lowercase from Rust as applied by read_args: each
character lowercased (the values the source compares against are ASCII,
where this agrees with the Unicode lowering Rust performs). -/
def rustToLowercase (s : String) : String :=
  String.mk (s.toList.map Char.toLower)

/-- The dataset-field block of read_args (src/compute/pre_compute_args.rs
lines 72-89): the four reads performed when is_dataset_required is true, in
source order, each with its own cause. -/
def readDataset (env : Env) :
    Except ReplicateStatusCause (String × String × String × String) :=
  match getEnvVarOrError env.iexecDatasetUrl
      .PreComputeDatasetUrlMissing with
  | .error e => .error e
  | .ok url =>
    match getEnvVarOrError env.iexecDatasetKey
        .PreComputeDatasetKeyMissing with
    | .error e => .error e
    | .ok key =>
      match getEnvVarOrError env.iexecDatasetChecksum
          .PreComputeDatasetChecksumMissing with
      | .error e => .error e
      | .ok checksum =>
        match getEnvVarOrError env.iexecDatasetFilename
            .PreComputeDatasetFilenameMissing with
        | .error e => .error e
        | .ok filename => .ok (url, key, checksum, filename)

/-- The input-file loop of read_args (src/compute/pre_compute_args.rs lines
99-106): reads count indexed variables starting at index start, failing on
the first missing one with PreComputeAtLeastOneInputFileUrlMissing. -/
def readInputUrlsAux (env : Env) (start : Nat) :
    Nat → Except ReplicateStatusCause (List String)
  | 0 => .ok []
  | count + 1 =>
    match getEnvVarOrError (env.inputFileUrl start)
        .PreComputeAtLeastOneInputFileUrlMissing with
    | .error e => .error e
    | .ok url =>
      match readInputUrlsAux env (start + 1) count with
      | .error e => .error e
      | .ok rest => .ok (url :: rest)

/-- Embeds PreComputeArgs::read_args from src/compute/pre_compute_args.rs:
reads and validates every variable, returning a fully-populated
configuration or the first specific failure cause. -/
def read_args (env : Env) : Except ReplicateStatusCause PreComputeArgs :=
  match getEnvVarOrError env.iexecPreComputeOut
      .PreComputeOutputPathMissing with
  | .error e => .error e
  | .ok output_dir =>
    match getEnvVarOrError env.isDatasetRequired
        .PreComputeIsDatasetRequiredMissing with
    | .error e => .error e
    | .ok is_dataset_required_str =>
      match parseRustBool (rustToLowercase is_dataset_required_str) with
      | none => .error .PreComputeIsDatasetRequiredMissing
      | some is_dataset_required =>
        match (if is_dataset_required
            then Except.map some (readDataset env)
            else .ok none) with
        | .error e => .error e
        | .ok datasetFields =>
          match getEnvVarOrError env.iexecInputFilesNumber
              .PreComputeInputFilesNumberMissing with
          | .error e => .error e
          | .ok input_files_nb_str =>
            match parseRustUsize input_files_nb_str with
            | none => .error .PreComputeInputFilesNumberMissing
            | some input_files_nb =>
              match readInputUrlsAux env 1 input_files_nb with
              | .error e => .error e
              | .ok input_files =>
                .ok { output_dir := output_dir
                      is_dataset_required := is_dataset_required
                      encrypted_dataset_url := datasetFields.map (·.1)
                      encrypted_dataset_base64_key :=
                        datasetFields.map (·.2.1)
                      encrypted_dataset_checksum :=
                        datasetFields.map (·.2.2.1)
                      plain_dataset_filename :=
                        datasetFields.map (·.2.2.2)
                      input_files := input_files }

/-- A character's value as a base-16 digit, as accepted by
u8::from_str_radix(_, 16): decimal digits and both letter cases. -/
def hexVal (c : Char) : Option Nat :=
  if '0' ≤ c ∧ c ≤ '9' then some (c.toNat - '0'.toNat)
  else if 'a' ≤ c ∧ c ≤ 'f' then some (c.toNat - 'a'.toNat + 10)
  else if 'A' ≤ c ∧ c ≤ 'F' then some (c.toNat - 'A'.toNat + 10)
  else none

/-- True when hexVal accepts the character. -/
def isHexDigitChar (c : Char) : Bool := (hexVal c).isSome

/-- Value of a non-empty all-hex character list in base 16; empty input or
any invalid digit is a parse error, as in the Rust core parse loop. -/
def hexDigitsToNat (l : List Char) : Option Nat :=
  if l = [] then none
  else if l.all isHexDigitChar then
    some (l.foldl (fun acc c => 16 * acc + (hexVal c).getD 0) 0)
  else none

/-- Models u8::from_str_radix(s, 16) from the Rust core library, as called
by hex_string_to_byte_array on 1- or 2-character slices: an optional
leading plus sign (a lone sign is an error; a minus sign is an error for
unsigned types), then one or more base-16 digits. Overflow cannot occur on
the at-most-2-character slices the source passes. -/
def u8FromStrRadix16 : List Char → Option Nat
  | [] => none
  | c :: rest =>
    if c = '+' then (if rest = [] then none else hexDigitsToNat rest)
    else hexDigitsToNat (c :: rest)

/-- Embeds clean_hex_prefix from src/compute/utils/hash_utils.rs on the
character list of the string: drops one leading "0x". -/
def removeHex0x : List Char → List Char
  | '0' :: 'x' :: rest => rest
  | l => l

/-- The pair loop of hex_string_to_byte_array: parses consecutive
2-character slices. The singleton case cannot be reached from
hex_string_to_byte_array, which always passes an even-length list here. -/
def hexPairsToBytes : List Char → Option (List Nat)
  | [] => some []
  | [_] => none
  | c1 :: c2 :: rest =>
    match u8FromStrRadix16 [c1, c2], hexPairsToBytes rest with
    | some b, some bs => some (b :: bs)
    | _, _ => none

/-- Embeds hex_string_to_byte_array from src/compute/utils/hash_utils.rs.
The source calls expect on each failed radix parse, i.e. it panics; the
none result models that panic. An odd-length input parses its first
character as a 1-character slice and the remainder as 2-character slices. -/
def hex_string_to_byte_array (input : String) : Option (List Nat) :=
  match removeHex0x input.toList with
  | [] => some []
  | c :: rest =>
    if (c :: rest).length % 2 = 1 then
      match u8FromStrRadix16 [c], hexPairsToBytes rest with
      | some b, some bs => some (b :: bs)
      | _, _ => none
    else hexPairsToBytes (c :: rest)

/-- Lowercase hex character of a value below 16. -/
def hexChar (n : Nat) : Char :=
  if n < 10 then Char.ofNat ('0'.toNat + n)
  else Char.ofNat ('a'.toNat + (n - 10))

/-- A byte as two lowercase hex characters, as the {:x} formatting of a
digest output renders each byte. -/
def byteToHex (b : Nat) : List Char := [hexChar (b / 16), hexChar (b % 16)]

/-- A byte string as lowercase hex. -/
def bytesToHex (bs : List Nat) : String :=
  String.mk (bs.map byteToHex).flatten

/-- Embeds concatenate_and_hash from src/compute/utils/hash_utils.rs over
an abstract Keccak-256 parameter (the sha3 crate's digest, external to this
repository): feeds each argument through hex_string_to_byte_array into one
running hash and renders the digest 0x-prefixed. Feeding the hasher
string-by-string hashes the concatenation of the decoded byte strings.
The none result propagates a hex-parse panic. -/
def concatenate_and_hash (keccak256 : List Nat → List Nat)
    (hexaStrings : List String) : Option String :=
  match hexaStrings.mapM hex_string_to_byte_array with
  | none => none
  | some byteStrings =>
    some ("0x" ++ bytesToHex (keccak256 byteStrings.flatten))

/-- Embeds sha256 from src/compute/utils/hash_utils.rs over an abstract
digest parameter (the sha256 crate, external to this repository, which
returns the lowercase hex digest of the input string): note the 0x prefix
added by the source. -/
def sha256F (digestOfString : String → String) (input : String) : String :=
  "0x" ++ digestOfString input

/-- Embeds sha256_from_bytes from src/compute/utils/hash_utils.rs over an
abstract digest parameter (lowercase hex digest of a byte string): note the
0x prefix added by the source. -/
def sha256_from_bytes (digestOfBytes : List Nat → String)
    (bytes : List Nat) : String :=
  "0x" ++ digestOfBytes bytes

/-- Embeds sign_enclave_challenge from src/compute/signer.rs. The alloy
key parsing and message signing are abstract parameters (external crates);
parseKey returns none when the private key fails to parse as a
PrivateKeySigner, signMessage returns none when the signing operation
fails. The outer none models the panic that a failed
hex_string_to_byte_array on the message hash raises. Note the source maps
a key-parse failure to PreComputeWorkerAddressMissing. -/
def sign_enclave_challenge {Signer : Type}
    (parseKey : String → Option Signer)
    (signMessage : Signer → List Nat → Option String)
    (messageHash : String) (enclaveChallengePrivateKey : String) :
    Option (Except ReplicateStatusCause String) :=
  match parseKey enclaveChallengePrivateKey with
  | none => some (.error .PreComputeWorkerAddressMissing)
  | some signer =>
    match hex_string_to_byte_array messageHash with
    | none => none
    | some messageBytes =>
      match signMessage signer messageBytes with
      | none => some (.error .PreComputeInvalidTeeSignature)
      | some signature => some (.ok signature)

/-- Embeds get_challenge from src/compute/signer.rs: reads the worker
address and the TEE challenge private key from the environment, hashes the
task id and the address together, and signs the hash. The none result
propagates a hex-parse panic out of concatenate_and_hash or
sign_enclave_challenge. -/
def get_challenge {Signer : Type} (keccak256 : List Nat → List Nat)
    (parseKey : String → Option Signer)
    (signMessage : Signer → List Nat → Option String)
    (env : Env) (chainTaskId : String) :
    Option (Except ReplicateStatusCause String) :=
  match getEnvVarOrError env.signWorkerAddress
      .PreComputeWorkerAddressMissing with
  | .error e => some (.error e)
  | .ok workerAddress =>
    match getEnvVarOrError env.signTeeChallengePrivateKey
        .PreComputeTeeChallengePrivateKeyMissing with
    | .error e => some (.error e)
    | .ok teeChallengePrivateKey =>
      match concatenate_and_hash keccak256 [chainTaskId, workerAddress] with
      | none => none
      | some messageHash =>
        sign_enclave_challenge parseKey signMessage messageHash
          teeChallengePrivateKey

/-- Embeds IPFS_GATEWAYS from src/compute/pre_compute_app.rs. -/
def IPFS_GATEWAYS : List String :=
  ["https://ipfs-gateway.v8-bellecour.iex.ec",
   "https://gateway.ipfs.io",
   "https://gateway.pinata.cloud"]

/-- Rust str::trim over the character list: whitespace removed from both
ends. -/
def trimChars (l : List Char) : List Char :=
  ((l.dropWhile Char.isWhitespace).reverse.dropWhile
    Char.isWhitespace).reverse

/-- Embeds is_multi_address from src/compute/pre_compute_app.rs over an
abstract multiaddress parser (the multiaddr crate, external to this
repository): the trimmed URI is non-empty and the parser accepts it. -/
def is_multi_address (multiaddrOk : String → Bool) (uri : String) : Bool :=
  !(trimChars uri.toList).isEmpty && multiaddrOk uri

/-- The gateway loop of download_encrypted_dataset (find_map over
IPFS_GATEWAYS): concatenates each gateway base with the multiaddress and
fetches, returning the first success together with the trace of full URLs
attempted in order. The fetch parameter models download_from_url of
src/compute/utils/file_utils.rs, an HTTP GET external to the embedding. -/
def tryGateways (fetch : String → Option (List Nat)) (url : String) :
    List String → Option (List Nat) × List String
  | [] => (none, [])
  | gateway :: rest =>
    let fullUrl := gateway ++ url
    match fetch fullUrl with
    | some content => (some content, [fullUrl])
    | none =>
      let (result, attempts) := tryGateways fetch url rest
      (result, fullUrl :: attempts)

/-- Embeds download_encrypted_dataset from src/compute/pre_compute_app.rs
(lines 164-207), also returning the trace of URLs it fetched. The outer
none models the unwrap panic when no dataset URL is configured. After a
successful download the source compares the configured checksum with
sha256_from_bytes of the content by plain string inequality, and maps a
missing checksum field to PreComputeDatasetDownloadFailed. -/
def download_encrypted_dataset (fetch : String → Option (List Nat))
    (digestOfBytes : List Nat → String) (multiaddrOk : String → Bool)
    (args : PreComputeArgs) :
    Option (Except ReplicateStatusCause (List Nat) × List String) :=
  match args.encrypted_dataset_url with
  | none => none
  | some encryptedDatasetUrl =>
    let (downloaded, attempts) :=
      if is_multi_address multiaddrOk encryptedDatasetUrl then
        tryGateways fetch encryptedDatasetUrl IPFS_GATEWAYS
      else (fetch encryptedDatasetUrl, [encryptedDatasetUrl])
    match downloaded with
    | none => some (.error .PreComputeDatasetDownloadFailed, attempts)
    | some encryptedContent =>
      match args.encrypted_dataset_checksum with
      | none => some (.error .PreComputeDatasetDownloadFailed, attempts)
      | some expectedChecksum =>
        if sha256_from_bytes digestOfBytes encryptedContent ≠
            expectedChecksum then
          some (.error .PreComputeInvalidDatasetChecksum, attempts)
        else some (.ok encryptedContent, attempts)

/-- Embeds download_input_files from src/compute/pre_compute_app.rs (lines
132-145), also returning the list of file paths written and the list of
URLs attempted, in order. dlOk models the success of download_file from
src/compute/utils/file_utils.rs for a URL (network and filesystem are
external); on success the file is written at output_dir joined with
sha256F of the URL, on the first failure the loop stops with
PreComputeInputFileDownloadFailed and earlier files stay written. -/
def download_input_files (dlOk : String → Bool)
    (digestOfString : String → String) (outputDir : String) :
    List String →
    Except ReplicateStatusCause Unit × List String × List String
  | [] => (.ok (), [], [])
  | url :: rest =>
    let filename := sha256F digestOfString url
    if dlOk url then
      let (result, written, attempted) :=
        download_input_files dlOk digestOfString outputDir rest
      (result, (outputDir ++ "/" ++ filename) :: written, url :: attempted)
    else (.error .PreComputeInputFileDownloadFailed, [], [url])

/-- PKCS#7 padding of a byte string to 16-byte blocks: appends p copies of
p where p is 16 minus the length modulo 16 (16 when already aligned). This
is the padding the AES-256-CBC/PKCS7 encryption of the round-trip claim
applies before chaining. -/
def pkcs7Pad (b : List Nat) : List Nat :=
  let p := 16 - b.length % 16
  b ++ List.replicate p p

/-- PKCS#7 unpadding as the block-padding crate performs it inside
decrypt_padded_vec_mut: the last byte p must be between 1 and 16, the last
p bytes must all equal p, and they are removed; anything else is an
unpadding error. -/
def pkcs7Unpad (b : List Nat) : Option (List Nat) :=
  match b.getLast? with
  | none => none
  | some p =>
    if 1 ≤ p ∧ p ≤ 16 ∧ p ≤ b.length ∧
        (b.drop (b.length - p)).all (fun x => x = p) then
      some (b.take (b.length - p))
    else none

/-- Splits a byte string into consecutive 16-byte chunks (the last chunk
short when the length is not a multiple of 16). -/
def chunks16 (l : List Nat) : List (List Nat) :=
  if h : l = [] then []
  else
    have : l.length - 16 < l.length := by
      have : 0 < l.length := List.length_pos.mpr h
      omega
    l.take 16 :: chunks16 (l.drop 16)
termination_by l.length
decreasing_by simpa using this

/-- CBC decryption chaining: each plaintext block is the block decryption
of the ciphertext block xored with the previous ciphertext block (the IV
first). -/
def cbcDecryptBlocks (blockDec : List Nat → List Nat → List Nat)
    (key : List Nat) (blocks : List (List Nat)) (prevs : List (List Nat)) :
    List (List Nat) :=
  List.zipWith (fun c prev => (blockDec key c).zipWith Nat.xor prev)
    blocks prevs

/-- Models Aes256CbcDec::decrypt_padded_vec_mut::<Pkcs7> from the cbc and
aes crates (external to this repository) over an abstract block-decryption
parameter: the ciphertext length must be a non-zero multiple of the 16-byte
block size, the blocks are CBC-chained from the IV, and the result is
PKCS#7-unpadded; any violation is the error the source maps to
PreComputeDatasetDecryptionFailed. -/
def cbcDecrypt (blockDec : List Nat → List Nat → List Nat)
    (key iv ciphertext : List Nat) : Option (List Nat) :=
  if ciphertext.length % 16 = 0 then
    let blocks := chunks16 ciphertext
    pkcs7Unpad (cbcDecryptBlocks blockDec key blocks (iv :: blocks)).flatten
  else none

/-- CBC encryption chaining with an abstract block-encryption parameter:
produces the ciphertext blocks of the already-padded plaintext blocks. -/
def cbcEncryptBlocks (blockEnc : List Nat → List Nat → List Nat)
    (key : List Nat) : List Nat → List (List Nat) → List (List Nat)
  | _, [] => []
  | prev, b :: bs =>
    let c := blockEnc key (b.zipWith Nat.xor prev)
    c :: cbcEncryptBlocks blockEnc key c bs

/-- AES-256-CBC/PKCS7 encryption of a plaintext under a key and IV, with an
abstract block cipher: pad, then chain. The round-trip claim composes this
with decrypt_dataset. -/
def cbcEncrypt (blockEnc : List Nat → List Nat → List Nat)
    (key iv plaintext : List Nat) : List Nat :=
  (cbcEncryptBlocks blockEnc key iv (chunks16 (pkcs7Pad plaintext))).flatten

/-- Embeds decrypt_dataset from src/compute/pre_compute_app.rs (lines
233-257) over abstract base64 decoding and block decryption (external
crates). The outer none models the unwrap panic when no base64 key is
configured. The source requires a 32-byte decoded key and at least 16
bytes of content, splits off the leading 16-byte IV, and CBC-decrypts the
remainder with PKCS#7 unpadding; every failure maps to
PreComputeDatasetDecryptionFailed. -/
def decrypt_dataset (blockDec : List Nat → List Nat → List Nat)
    (base64Decode : String → Option (List Nat)) (args : PreComputeArgs)
    (encryptedContent : List Nat) :
    Option (Except ReplicateStatusCause (List Nat)) :=
  match args.encrypted_dataset_base64_key with
  | none => none
  | some base64Key =>
    match base64Decode base64Key with
    | none => some (.error .PreComputeDatasetDecryptionFailed)
    | some key =>
      if encryptedContent.length < 16 ∨ key.length ≠ 32 then
        some (.error .PreComputeDatasetDecryptionFailed)
      else
        let iv := encryptedContent.take 16
        let ciphertext := encryptedContent.drop 16
        match cbcDecrypt blockDec key iv ciphertext with
        | some plain => some (.ok plain)
        | none => some (.error .PreComputeDatasetDecryptionFailed)

/-- Embeds PreComputeApp::run from src/compute/pre_compute_app.rs (lines
52-63), threading the external effects as parameters: isDir models
Path::is_dir for check_output_folder, writeOk the write_file success for
save_plain_dataset_file, dlOk the per-URL download_file success. The
returned Bool records whether decrypt_dataset was invoked; the outer none
models a propagated panic. -/
def runApp (env : Env) (fetch : String → Option (List Nat))
    (digestOfString : String → String)
    (digestOfBytes : List Nat → String) (multiaddrOk : String → Bool)
    (blockDec : List Nat → List Nat → List Nat)
    (base64Decode : String → Option (List Nat))
    (isDir : String → Bool) (writeOk : String → Bool)
    (dlOk : String → Bool) :
    Option (Except ReplicateStatusCause Unit × Bool) :=
  match read_args env with
  | .error e => some (.error e, false)
  | .ok args =>
    if isDir args.output_dir = false then
      some (.error .PreComputeOutputFolderNotFound, false)
    else if args.is_dataset_required then
      match download_encrypted_dataset fetch digestOfBytes multiaddrOk
          args with
      | none => none
      | some (.error e, _) => some (.error e, false)
      | some (.ok encryptedContent, _) =>
        match decrypt_dataset blockDec base64Decode args
            encryptedContent with
        | none => none
        | some (.error e) => some (.error e, true)
        | some (.ok _plainContent) =>
          match args.plain_dataset_filename with
          | none => none
          | some filename =>
            if writeOk (args.output_dir ++ "/" ++ filename) = false then
              some (.error .PreComputeSavingPlainDatasetFailed, true)
            else
              some ((download_input_files dlOk digestOfString
                args.output_dir args.input_files).1, true)
    else
      some ((download_input_files dlOk digestOfString args.output_dir
        args.input_files).1, false)

/-- The outcomes start_with_app consumes, abstracted from the effects it
sequences: the IEXEC_TASK_ID variable, the PreComputeAppTrait::run result,
the get_challenge result (none = panic), and the worker-report result. -/
structure RunnerWorld where
  taskIdEnv : Option String
  runResult : Except ReplicateStatusCause Unit
  challengeResult : Option (Except ReplicateStatusCause String)
  reportResult : Except ReplicateStatusCause Unit

/-- Embeds start_with_app from src/compute/app_runner.rs (lines 43-89).
Besides the ExitMode it returns the cause carried by the ExitMessage
posted to the worker API (none when no report was attempted); the outer
none models a get_challenge panic. Note that the source initializes
exit_cause to PreComputeFailedUnknownIssue and the Err(exit_cause) match
arm only shadows that binding inside the arm, so the ExitMessage is always
built from the generic cause. -/
def start_with_app (w : RunnerWorld) :
    Option (ExitMode × Option ReplicateStatusCause) :=
  match getEnvVarOrError w.taskIdEnv .PreComputeTaskIdMissing with
  | .error _ => some (.InitializationFailure, none)
  | .ok _chainTaskId =>
    let exit_cause := ReplicateStatusCause.PreComputeFailedUnknownIssue
    match w.runResult with
    | .ok _ => some (.Success, none)
    | .error _shadowed =>
      match w.challengeResult with
      | none => none
      | some (.error _) => some (.UnreportedFailure, none)
      | some (.ok _authorization) =>
        match w.reportResult with
        | .ok _ => some (.ReportedFailure, some exit_cause)
        | .error _ => some (.UnreportedFailure, some exit_cause)

/-- Claim C1: the Run Controller maps every run outcome to exactly one of
four exit states — task id absent or empty gives InitializationFailure with
no report attempted; a successful orchestrator run gives Success; a failed
run with a signing error gives UnreportedFailure; a failed run with a
signature but a failed report gives UnreportedFailure; a failed run with a
signature and a successful report gives ReportedFailure; and the four
states convert to process exit codes 0, 1, 2, 3 respectively. -/
theorem c1_run_controller_four_exit_states (w : RunnerWorld) :
    ((w.taskIdEnv = none ∨ w.taskIdEnv = some "") →
      start_with_app w = some (.InitializationFailure, none)) ∧
    (∀ taskId, w.taskIdEnv = some taskId → taskId ≠ "" →
      ((w.runResult = .ok () → start_with_app w = some (.Success, none)) ∧
       (∀ c, w.runResult = .error c →
         ((∀ e, w.challengeResult = some (.error e) →
            start_with_app w = some (.UnreportedFailure, none)) ∧
          (∀ auth, w.challengeResult = some (.ok auth) →
            ((∀ e2, w.reportResult = .error e2 →
               start_with_app w =
                 some (.UnreportedFailure,
                   some .PreComputeFailedUnknownIssue)) ∧
             (w.reportResult = .ok () →
               start_with_app w =
                 some (.ReportedFailure,
                   some .PreComputeFailedUnknownIssue)))))))) ∧
    (exitCode .Success = 0 ∧ exitCode .ReportedFailure = 1 ∧
     exitCode .UnreportedFailure = 2 ∧ exitCode .InitializationFailure = 3) := by
  refine ⟨?_, ?_, rfl, rfl, rfl, rfl⟩
  · rintro (h | h) <;> simp [start_with_app, getEnvVarOrError, h]
  · rintro taskId h hne
    refine ⟨?_, ?_⟩
    · intro hrun
      simp [start_with_app, getEnvVarOrError, h, hne, hrun]
    · rintro c hrun
      refine ⟨?_, ?_⟩
      · rintro e hch
        simp [start_with_app, getEnvVarOrError, h, hne, hrun, hch]
      · rintro auth hch
        refine ⟨?_, ?_⟩
        · rintro e2 hrep
          simp [start_with_app, getEnvVarOrError, h, hne, hrun, hch, hrep]
        · intro hrep
          simp [start_with_app, getEnvVarOrError, h, hne, hrun, hch, hrep]

/-- Witness for c1_run_controller_four_exit_states at a concrete world with
the task id unset. -/
theorem c1_run_controller_four_exit_states_witness :
    start_with_app
      { taskIdEnv := none, runResult := .ok (),
        challengeResult := none, reportResult := .ok () } =
      some (.InitializationFailure, none) :=
  (c1_run_controller_four_exit_states _).1 (Or.inl rfl)

/-- Claim C2 fails on the code: with the orchestrator failing with the
dataset-download cause, a working signer and a successful report, the
ExitMessage posted carries the generic unknown-issue cause, not the
orchestrator's cause. -/
theorem c2_counterexample_posted_cause_is_generic :
    start_with_app
      { taskIdEnv := some "0x123456789abcdef",
        runResult := .error .PreComputeDatasetDownloadFailed,
        challengeResult := some (.ok "0xauth"),
        reportResult := .ok () } =
      some (.ReportedFailure, some .PreComputeFailedUnknownIssue) ∧
    ReplicateStatusCause.PreComputeFailedUnknownIssue ≠
      .PreComputeDatasetDownloadFailed := by
  constructor
  · rfl
  · decide

/-- Claim C2 amended: whenever the orchestrator run fails — with any cause
c — and challenge signing succeeds, the exit message that start_with_app
posts to the worker API carries the generic PreComputeFailedUnknownIssue
cause, never c: the Err(exit_cause) pattern in the source only shadows the
preset generic binding inside its own match arm. -/
theorem c2_amended_posted_cause_always_generic (w : RunnerWorld)
    (taskId : String) (htid : w.taskIdEnv = some taskId)
    (hne : taskId ≠ "") (c : ReplicateStatusCause)
    (hrun : w.runResult = .error c) (auth : String)
    (hch : w.challengeResult = some (.ok auth)) :
    (start_with_app w).map (fun r => r.2) =
      some (some .PreComputeFailedUnknownIssue) := by
  cases hrep : w.reportResult with
  | ok u =>
    simp [start_with_app, getEnvVarOrError, htid, hne, hrun, hch, hrep]
  | error e =>
    simp [start_with_app, getEnvVarOrError, htid, hne, hrun, hch, hrep]

/-- Witness for c2_amended_posted_cause_always_generic at a concrete world
failing with the output-folder cause. -/
theorem c2_amended_posted_cause_always_generic_witness :
    (start_with_app
      { taskIdEnv := some "0xabc",
        runResult := .error .PreComputeOutputFolderNotFound,
        challengeResult := some (.ok "0xsig"),
        reportResult := .error .PreComputeFailedUnknownIssue }).map
      (fun r => r.2) = some (some .PreComputeFailedUnknownIssue) :=
  c2_amended_posted_cause_always_generic _ "0xabc" rfl (by decide) _ rfl
    "0xsig" rfl

/-- Claim C4 is contradicted by the code: sign_enclave_challenge maps a
private key that fails to parse to PreComputeWorkerAddressMissing — not to
the TEE-challenge-key cause its own doc comment promises — as this
evaluation at an unparsable key shows; the signing-failure half of the
claim does hold (PreComputeInvalidTeeSignature), shown at a key that
parses but whose signing operation fails. -/
theorem c4_key_parse_failure_wrong_cause_eval :
    sign_enclave_challenge (fun _ => (none : Option Unit))
      (fun _ _ => some "0xsig")
      "0x5cd0e9c5180dd35e2b8285d0db4ded193a9b4be6fbfab90cbadccecab130acad"
      "bad_key" = some (.error .PreComputeWorkerAddressMissing) ∧
    ReplicateStatusCause.PreComputeWorkerAddressMissing ≠
      .PreComputeTeeChallengePrivateKeyMissing ∧
    sign_enclave_challenge (fun _ => some ())
      (fun _ _ => (none : Option String)) "0x5cd0" "0xdd3b" =
      some (.error .PreComputeInvalidTeeSignature) := by
  refine ⟨rfl, by decide, rfl⟩

/-- A variable that get_env_var_or_error rejects: unset or set to the empty
string. -/
def envMissing (v : Option String) : Prop := v = none ∨ v = some ""

/-- A variable that get_env_var_or_error accepts: set to a non-empty
value. -/
def envPresent (v : Option String) : Prop := ∃ s, v = some s ∧ s ≠ ""

theorem getEnvVarOrError_ok_iff (v : Option String)
    (c : ReplicateStatusCause) (s : String) :
    getEnvVarOrError v c = .ok s ↔ v = some s ∧ s ≠ "" := by
  cases v with
  | none => simp [getEnvVarOrError]
  | some t =>
    by_cases ht : t = "" <;> simp [getEnvVarOrError, ht] <;> aesop

theorem getEnvVarOrError_error_of_missing (v : Option String)
    (c : ReplicateStatusCause) (h : envMissing v) :
    getEnvVarOrError v c = .error c := by
  rcases h with h | h <;> simp [getEnvVarOrError, h]

theorem getEnvVarOrError_ok_of_present (v : Option String)
    (c : ReplicateStatusCause) (h : envPresent v) :
    ∃ s, getEnvVarOrError v c = .ok s ∧ v = some s ∧ s ≠ "" := by
  obtain ⟨s, hv, hs⟩ := h
  exact ⟨s, by simp [getEnvVarOrError, hv, hs], hv, hs⟩

theorem readInputUrlsAux_ok (env : Env) :
    ∀ (count start : Nat) (files : List String),
      readInputUrlsAux env start count = .ok files →
      files.length = count ∧
        ∀ j (hj : j < files.length),
          env.inputFileUrl (start + j) = some (files.get ⟨j, hj⟩) := by
  intro count
  induction count with
  | zero =>
    intro start files h
    simp only [readInputUrlsAux] at h
    cases h
    simp
  | succ k ih =>
    intro start files h
    simp only [readInputUrlsAux] at h
    cases h1 : getEnvVarOrError (env.inputFileUrl start)
        .PreComputeAtLeastOneInputFileUrlMissing with
    | error e => rw [h1] at h; cases h
    | ok url =>
      rw [h1] at h
      cases h2 : readInputUrlsAux env (start + 1) k with
      | error e => rw [h2] at h; cases h
      | ok rest =>
        rw [h2] at h
        cases h
        obtain ⟨hlen, hval⟩ := ih (start + 1) rest h2
        obtain ⟨hv, -⟩ := (getEnvVarOrError_ok_iff _ _ _).mp h1
        refine ⟨by simp [hlen], ?_⟩
        intro j hj
        cases j with
        | zero => simpa using hv
        | succ i =>
          have hi : i < rest.length := by simpa using hj
          have h3 := hval i hi
          have harith : start + (i + 1) = start + 1 + i := by omega
          rw [harith]
          exact h3

theorem readInputUrlsAux_error (env : Env) :
    ∀ (count start i : Nat), i < count →
      (∀ j, j < i → envPresent (env.inputFileUrl (start + j))) →
      envMissing (env.inputFileUrl (start + i)) →
      readInputUrlsAux env start count =
        .error .PreComputeAtLeastOneInputFileUrlMissing := by
  intro count
  induction count with
  | zero => intro start i hi; omega
  | succ k ih =>
    intro start i hi hpre hmiss
    cases i with
    | zero =>
      have := getEnvVarOrError_error_of_missing (env.inputFileUrl start)
        .PreComputeAtLeastOneInputFileUrlMissing (by simpa using hmiss)
      simp only [readInputUrlsAux, this]
    | succ m =>
      obtain ⟨u, hu, hune⟩ := hpre 0 (Nat.succ_pos m)
      have hfirst : getEnvVarOrError (env.inputFileUrl start)
          .PreComputeAtLeastOneInputFileUrlMissing = .ok u := by
        simp only [Nat.add_zero] at hu
        simp [getEnvVarOrError, hu, hune]
      have hrec := ih (start + 1) m (by omega)
        (fun j hj => by
          have := hpre (j + 1) (by omega)
          simpa [Nat.add_assoc, Nat.add_comm 1 j] using this)
        (by simpa [Nat.add_assoc, Nat.add_comm 1 m] using hmiss)
      simp only [readInputUrlsAux, hfirst, hrec]

/-- Claim C5: read_args returns a configuration whose four dataset fields
are present exactly when the dataset-required flag is true, whose
input_files list holds exactly N URLs taken from the indexed variables
1..N in order when the parsed count is N; any required variable that is
absent or empty fails the whole read with that variable's specific cause
(shown here for every variable, at the earliest point where that variable
is the one read), and — the result being a single Except value — no
partially populated configuration is ever returned. -/
theorem c5_read_args_validated_construction (env : Env) :
    (∀ args, read_args env = .ok args →
      ((args.is_dataset_required = true →
          args.encrypted_dataset_url.isSome = true ∧
          args.encrypted_dataset_base64_key.isSome = true ∧
          args.encrypted_dataset_checksum.isSome = true ∧
          args.plain_dataset_filename.isSome = true) ∧
       (args.is_dataset_required = false →
          args.encrypted_dataset_url = none ∧
          args.encrypted_dataset_base64_key = none ∧
          args.encrypted_dataset_checksum = none ∧
          args.plain_dataset_filename = none) ∧
       (∃ nstr n, env.iexecInputFilesNumber = some nstr ∧
          parseRustUsize nstr = some n ∧
          args.input_files.length = n ∧
          ∀ j (hj : j < args.input_files.length),
            env.inputFileUrl (j + 1) =
              some (args.input_files.get ⟨j, hj⟩)))) ∧
    (envMissing env.iexecPreComputeOut →
      read_args env = .error .PreComputeOutputPathMissing) ∧
    (envPresent env.iexecPreComputeOut →
      ((envMissing env.isDatasetRequired →
         read_args env = .error .PreComputeIsDatasetRequiredMissing) ∧
       (∀ ds, env.isDatasetRequired = some ds → ds ≠ "" →
         parseRustBool (rustToLowercase ds) = some true →
         ((envMissing env.iexecDatasetUrl →
            read_args env = .error .PreComputeDatasetUrlMissing) ∧
          (envPresent env.iexecDatasetUrl →
           envMissing env.iexecDatasetKey →
            read_args env = .error .PreComputeDatasetKeyMissing) ∧
          (envPresent env.iexecDatasetUrl →
           envPresent env.iexecDatasetKey →
           envMissing env.iexecDatasetChecksum →
            read_args env = .error .PreComputeDatasetChecksumMissing) ∧
          (envPresent env.iexecDatasetUrl →
           envPresent env.iexecDatasetKey →
           envPresent env.iexecDatasetChecksum →
           envMissing env.iexecDatasetFilename →
            read_args env = .error .PreComputeDatasetFilenameMissing))) ∧
       (∀ ds b, env.isDatasetRequired = some ds → ds ≠ "" →
         parseRustBool (rustToLowercase ds) = some b →
         (b = false ∨ ∃ t, readDataset env = .ok t) →
         ((envMissing env.iexecInputFilesNumber →
            read_args env = .error .PreComputeInputFilesNumberMissing) ∧
          (∀ nstr n, env.iexecInputFilesNumber = some nstr → nstr ≠ "" →
            parseRustUsize nstr = some n →
            ∀ i, i < n →
              (∀ j, j < i → envPresent (env.inputFileUrl (1 + j))) →
              envMissing (env.inputFileUrl (1 + i)) →
              read_args env =
                .error .PreComputeAtLeastOneInputFileUrlMissing))))) := by
  refine ⟨?_, ?_, ?_⟩
  · -- success shape
    intro args h
    simp only [read_args] at h
    cases h1 : getEnvVarOrError env.iexecPreComputeOut
        .PreComputeOutputPathMissing with
    | error e => simp only [h1] at h; cases h
    | ok output_dir =>
    simp only [h1] at h
    cases h2 : getEnvVarOrError env.isDatasetRequired
        .PreComputeIsDatasetRequiredMissing with
    | error e => simp only [h2] at h; cases h
    | ok ds_str =>
    simp only [h2] at h
    cases h3 : parseRustBool (rustToLowercase ds_str) with
    | none => simp only [h3] at h; cases h
    | some required =>
    simp only [h3] at h
    cases h4 : (if required = true then Except.map some (readDataset env)
        else Except.ok none) with
    | error e => simp only [h4] at h; cases h
    | ok dsF =>
    simp only [h4] at h
    cases h5 : getEnvVarOrError env.iexecInputFilesNumber
        .PreComputeInputFilesNumberMissing with
    | error e => simp only [h5] at h; cases h
    | ok nstr =>
    simp only [h5] at h
    cases h6 : parseRustUsize nstr with
    | none => simp only [h6] at h; cases h
    | some n =>
    simp only [h6] at h
    cases h7 : readInputUrlsAux env 1 n with
    | error e => simp only [h7] at h; cases h
    | ok files =>
    simp only [h7] at h
    cases h
    refine ⟨?_, ?_, ?_⟩
    · intro hreq
      simp only at hreq
      subst hreq
      rw [if_pos rfl] at h4
      cases h8 : readDataset env with
      | error e => rw [h8] at h4; cases h4
      | ok t =>
        rw [h8] at h4
        cases h4
        simp
    · intro hreq
      simp only at hreq
      subst hreq
      rw [if_neg (by simp)] at h4
      cases h4
      simp
    · obtain ⟨hv, hne⟩ := (getEnvVarOrError_ok_iff _ _ _).mp h5
      obtain ⟨hlen, hval⟩ := readInputUrlsAux_ok env n 1 files h7
      refine ⟨nstr, n, hv, h6, by simpa using hlen, ?_⟩
      intro j hj
      have := hval j (by simpa using hj)
      rw [Nat.add_comm j 1]
      exact this
  · -- output path missing
    intro hmiss
    simp [read_args, getEnvVarOrError_error_of_missing _ _ hmiss]
  · intro hout
    obtain ⟨o, ho1, ho2, ho3⟩ := getEnvVarOrError_ok_of_present
      env.iexecPreComputeOut .PreComputeOutputPathMissing hout
    refine ⟨?_, ?_, ?_⟩
    · intro hmiss
      simp [read_args, ho1, getEnvVarOrError_error_of_missing _ _ hmiss]
    · intro ds hds hdsne hparse
      have hds' : getEnvVarOrError env.isDatasetRequired
          .PreComputeIsDatasetRequiredMissing = .ok ds := by
        simp [getEnvVarOrError, hds, hdsne]
      refine ⟨?_, ?_, ?_, ?_⟩
      · intro hmiss
        simp [read_args, readDataset, ho1, hds', hparse,
          getEnvVarOrError_error_of_missing _ _ hmiss, Except.map]
      · intro hurl hmiss
        obtain ⟨u, hu1, -, -⟩ := getEnvVarOrError_ok_of_present
          env.iexecDatasetUrl .PreComputeDatasetUrlMissing hurl
        simp [read_args, readDataset, ho1, hds', hparse, hu1,
          getEnvVarOrError_error_of_missing _ _ hmiss, Except.map]
      · intro hurl hkey hmiss
        obtain ⟨u, hu1, -, -⟩ := getEnvVarOrError_ok_of_present
          env.iexecDatasetUrl .PreComputeDatasetUrlMissing hurl
        obtain ⟨k, hk1, -, -⟩ := getEnvVarOrError_ok_of_present
          env.iexecDatasetKey .PreComputeDatasetKeyMissing hkey
        simp [read_args, readDataset, ho1, hds', hparse, hu1, hk1,
          getEnvVarOrError_error_of_missing _ _ hmiss, Except.map]
      · intro hurl hkey hsum hmiss
        obtain ⟨u, hu1, -, -⟩ := getEnvVarOrError_ok_of_present
          env.iexecDatasetUrl .PreComputeDatasetUrlMissing hurl
        obtain ⟨k, hk1, -, -⟩ := getEnvVarOrError_ok_of_present
          env.iexecDatasetKey .PreComputeDatasetKeyMissing hkey
        obtain ⟨s, hs1, -, -⟩ := getEnvVarOrError_ok_of_present
          env.iexecDatasetChecksum .PreComputeDatasetChecksumMissing hsum
        simp [read_args, readDataset, ho1, hds', hparse, hu1, hk1, hs1,
          getEnvVarOrError_error_of_missing _ _ hmiss, Except.map]
    · intro ds b hds hdsne hparse hdsok
      have hds' : getEnvVarOrError env.isDatasetRequired
          .PreComputeIsDatasetRequiredMissing = .ok ds := by
        simp [getEnvVarOrError, hds, hdsne]
      have hstage : (if b then Except.map some (readDataset env)
          else Except.ok none) =
          .ok (if b then (readDataset env).toOption else none) := by
        rcases hdsok with hb | ⟨t, ht⟩
        · subst hb; simp
        · cases b with
          | false => simp
          | true => simp [ht, Except.map, Except.toOption]
      refine ⟨?_, ?_⟩
      · intro hmiss
        simp [read_args, ho1, hds', hparse, hstage,
          getEnvVarOrError_error_of_missing _ _ hmiss]
      · intro nstr n hn hnne hnparse i hi hpre hmiss
        have hn' : getEnvVarOrError env.iexecInputFilesNumber
            .PreComputeInputFilesNumberMissing = .ok nstr := by
          simp [getEnvVarOrError, hn, hnne]
        have hloop := readInputUrlsAux_error env n 1 i hi hpre hmiss
        simp [read_args, ho1, hds', hparse, hstage, hn', hnparse, hloop]

/-- Witness for c5_read_args_validated_construction at an environment
missing the output-path variable. -/
theorem c5_read_args_validated_construction_witness :
    read_args
      { iexecPreComputeOut := none, isDatasetRequired := some "false",
        iexecDatasetUrl := none, iexecDatasetKey := none,
        iexecDatasetChecksum := none, iexecDatasetFilename := none,
        iexecInputFilesNumber := some "0",
        inputFileUrl := fun _ => none, iexecTaskId := none,
        signWorkerAddress := none, signTeeChallengePrivateKey := none } =
      .error .PreComputeOutputPathMissing :=
  (c5_read_args_validated_construction _).2.1 (Or.inl rfl)

/-- An environment for exercising the IS_DATASET_REQUIRED parsing of
read_args: every other variable present and valid (dataset fields as in the
repository's own tests), the boolean value a parameter. -/
def c6EnvBool (v : String) : Env :=
  { iexecPreComputeOut := some "/iexec_out"
    isDatasetRequired := some v
    iexecDatasetUrl := some "https://dataset.url"
    iexecDatasetKey := some "datasetKey123"
    iexecDatasetChecksum := some "0x123checksum"
    iexecDatasetFilename := some "dataset.txt"
    iexecInputFilesNumber := some "0"
    inputFileUrl := fun _ => none
    iexecTaskId := none
    signWorkerAddress := none
    signTeeChallengePrivateKey := none }

/-- An environment for exercising the IEXEC_INPUT_FILES_NUMBER parsing of
read_args: dataset not required, the count value a parameter. -/
def c6EnvCount (w : String) : Env :=
  { c6EnvBool "false" with iexecInputFilesNumber := some w }

/-- Claim C6 fails on the code: a present non-boolean IS_DATASET_REQUIRED
value fails with PreComputeIsDatasetRequiredMissing, the very cause used
when the variable is missing, and a present non-numeric
IEXEC_INPUT_FILES_NUMBER fails with PreComputeInputFilesNumberMissing,
again the cause used when that variable is missing — the invalid-value
causes are not distinct from the missing-value causes. -/
theorem c6_counterexample_invalid_value_shares_missing_cause :
    read_args (c6EnvBool "not-a-bool") =
      .error .PreComputeIsDatasetRequiredMissing ∧
    read_args { c6EnvBool "not-a-bool" with isDatasetRequired := none } =
      .error .PreComputeIsDatasetRequiredMissing ∧
    read_args (c6EnvCount "not-a-number") =
      .error .PreComputeInputFilesNumberMissing ∧
    read_args { c6EnvCount "not-a-number" with
        iexecInputFilesNumber := none } =
      .error .PreComputeInputFilesNumberMissing := by
  refine ⟨rfl, rfl, rfl, rfl⟩

/-- Claim C6 amended: the dataset-required boolean does parse
case-insensitively — any value lowercasing to true or false is accepted,
shown by a successful read either way — but a present non-boolean value
fails with the same PreComputeIsDatasetRequiredMissing cause as a missing
variable, and a present non-numeric input-file count fails with the same
PreComputeInputFilesNumberMissing cause as a missing variable, not with
causes distinct from the missing ones. -/
theorem c6_amended_insensitive_bool_invalid_shares_missing_cause :
    (∀ v, rustToLowercase v = "true" →
      read_args (c6EnvBool v) =
        .ok { output_dir := "/iexec_out", is_dataset_required := true,
              encrypted_dataset_url := some "https://dataset.url",
              encrypted_dataset_base64_key := some "datasetKey123",
              encrypted_dataset_checksum := some "0x123checksum",
              plain_dataset_filename := some "dataset.txt",
              input_files := [] }) ∧
    (∀ v, rustToLowercase v = "false" →
      read_args (c6EnvBool v) =
        .ok { output_dir := "/iexec_out", is_dataset_required := false,
              encrypted_dataset_url := none,
              encrypted_dataset_base64_key := none,
              encrypted_dataset_checksum := none,
              plain_dataset_filename := none,
              input_files := [] }) ∧
    (∀ v, v ≠ "" → parseRustBool (rustToLowercase v) = none →
      read_args (c6EnvBool v) =
        .error .PreComputeIsDatasetRequiredMissing) ∧
    (∀ w, w ≠ "" → parseRustUsize w = none →
      read_args (c6EnvCount w) =
        .error .PreComputeInputFilesNumberMissing) := by
  refine ⟨?_, ?_, ?_, ?_⟩
  · intro v hv
    have hvne : v ≠ "" := by
      intro h; rw [h] at hv; exact absurd hv (by decide)
    simp [read_args, c6EnvBool, getEnvVarOrError, hv, hvne, parseRustBool,
      readDataset, readInputUrlsAux, Except.map, parseRustUsize,
      decDigitsToNat]
  · intro v hv
    have hvne : v ≠ "" := by
      intro h; rw [h] at hv; exact absurd hv (by decide)
    simp [read_args, c6EnvBool, getEnvVarOrError, hv, hvne, parseRustBool,
      readDataset, readInputUrlsAux, Except.map, parseRustUsize,
      decDigitsToNat]
  · intro v hvne hparse
    simp [read_args, c6EnvBool, getEnvVarOrError, hvne, hparse]
  · intro w hwne hparse
    have hlow : rustToLowercase "false" = "false" := by decide
    simp [read_args, c6EnvCount, c6EnvBool, getEnvVarOrError, hwne,
      hparse, parseRustBool, hlow, Except.map]

/-- Witness for c6_amended_insensitive_bool_invalid_shares_missing_cause
at the mixed-case value TRUE. -/
theorem c6_amended_insensitive_bool_witness :
    read_args (c6EnvBool "TRUE") =
      .ok { output_dir := "/iexec_out", is_dataset_required := true,
            encrypted_dataset_url := some "https://dataset.url",
            encrypted_dataset_base64_key := some "datasetKey123",
            encrypted_dataset_checksum := some "0x123checksum",
            plain_dataset_filename := some "dataset.txt",
            input_files := [] } :=
  c6_amended_insensitive_bool_invalid_shares_missing_cause.1 "TRUE"
    (by decide)

/-- Modelled from the spec's words for claim C7: an input file is written
at output_dir slash the bare lowercase hex SHA-256 digest of the URL
string, with no extension (and, in particular, no 0x prefix). -/
def specInputFilePath (digestOfString : String → String)
    (outputDir url : String) : String :=
  outputDir ++ "/" ++ digestOfString url

/-- Claim C7 fails on the code as glossed: the filename the source builds
is sha256(url) from hash_utils.rs, which is the digest with a 0x prefix,
not the bare lowercase hex digest - shown here with one successfully
downloaded URL whose digest is aa: the written path is /out/0xaa, not the
/out/aa the claim's gloss describes. -/
theorem c7_counterexample_written_path_has_0x :
    (download_input_files (fun _ => true) (fun _ => "aa") "/out"
      ["https://u"]).2.1 = ["/out/0xaa"] ∧
    ["/out/0xaa"] ≠
      [specInputFilePath (fun _ => "aa") "/out" "https://u"] := by
  exact ⟨rfl, by decide⟩

/-- Claim C7 amended: download_input_files processes the configured URLs
in declared order, writing each fetched file at output_dir joined with
sha256F of the URL - the 0x-prefixed lowercase hex SHA-256 digest of the
URL string, with no extension - and stops at the first URL whose download
fails, returning PreComputeInputFileDownloadFailed; the files already
written for prior URLs remain and no later URL is attempted. -/
theorem c7_amended_ordered_writes_stop_at_first_failure
    (dlOk : String → Bool) (digestOfString : String → String)
    (dir : String) :
    (∀ urls, (∀ u ∈ urls, dlOk u = true) →
      download_input_files dlOk digestOfString dir urls =
        (.ok (),
         urls.map (fun u => dir ++ "/" ++ sha256F digestOfString u),
         urls)) ∧
    (∀ pre u post, (∀ v ∈ pre, dlOk v = true) → dlOk u = false →
      download_input_files dlOk digestOfString dir (pre ++ u :: post) =
        (.error .PreComputeInputFileDownloadFailed,
         pre.map (fun v => dir ++ "/" ++ sha256F digestOfString v),
         pre ++ [u])) := by
  constructor
  · intro urls
    induction urls with
    | nil => intro _; rfl
    | cons u rest ih =>
      intro hall
      have hu : dlOk u = true := hall u (by simp)
      have hrest := ih (fun v hv => hall v (by simp [hv]))
      simp [download_input_files, hu, hrest]
  · intro pre
    induction pre with
    | nil =>
      intro u post _ hu
      simp [download_input_files, hu]
    | cons v vs ih =>
      intro u post hall hu
      have hv : dlOk v = true := hall v (by simp)
      have hrec := ih u post (fun x hx => hall x (by simp [hx])) hu
      simp [download_input_files, hv, hrec]

/-- Witness for c7_amended_ordered_writes_stop_at_first_failure: with URLs
A (succeeds), B (fails), C (never attempted), the file for A is written,
no file for C, the attempt list stops at B. -/
theorem c7_amended_ordered_writes_witness :
    download_input_files (fun s => s != "B") (fun _ => "d") "/out"
      ["A", "B", "C"] =
      (.error .PreComputeInputFileDownloadFailed, ["/out/0xd"],
       ["A", "B"]) :=
  (c7_amended_ordered_writes_stop_at_first_failure (fun s => s != "B")
    (fun _ => "d") "/out").2 ["A"] "B" ["C"] (by decide) (by decide)

/-- Claim C8: when the dataset URL parses as a multiaddress,
download_encrypted_dataset tries the fixed gateway list in declared order,
forming each attempt by concatenating the gateway base URL with the
multiaddress; it returns the bytes of the first gateway that succeeds
(each earlier, failing gateway attempted exactly once, shown by the
attempt trace), and returns PreComputeDatasetDownloadFailed only after
every gateway has failed. The success conjuncts assume the configured
checksum matches the downloaded bytes, since the source verifies it before
returning them. -/
theorem c8_gateway_fallback_in_declared_order
    (fetch : String → Option (List Nat))
    (digestOfBytes : List Nat → String) (multiaddrOk : String → Bool)
    (args : PreComputeArgs) (url expected : String)
    (hurl : args.encrypted_dataset_url = some url)
    (hmulti : is_multi_address multiaddrOk url = true)
    (hsum : args.encrypted_dataset_checksum = some expected) :
    (∀ bs, fetch ("https://ipfs-gateway.v8-bellecour.iex.ec" ++ url) =
        some bs →
      sha256_from_bytes digestOfBytes bs = expected →
      download_encrypted_dataset fetch digestOfBytes multiaddrOk args =
        some (.ok bs,
          ["https://ipfs-gateway.v8-bellecour.iex.ec" ++ url])) ∧
    (∀ bs, fetch ("https://ipfs-gateway.v8-bellecour.iex.ec" ++ url) =
        none →
      fetch ("https://gateway.ipfs.io" ++ url) = some bs →
      sha256_from_bytes digestOfBytes bs = expected →
      download_encrypted_dataset fetch digestOfBytes multiaddrOk args =
        some (.ok bs,
          ["https://ipfs-gateway.v8-bellecour.iex.ec" ++ url,
           "https://gateway.ipfs.io" ++ url])) ∧
    (∀ bs, fetch ("https://ipfs-gateway.v8-bellecour.iex.ec" ++ url) =
        none →
      fetch ("https://gateway.ipfs.io" ++ url) = none →
      fetch ("https://gateway.pinata.cloud" ++ url) = some bs →
      sha256_from_bytes digestOfBytes bs = expected →
      download_encrypted_dataset fetch digestOfBytes multiaddrOk args =
        some (.ok bs,
          ["https://ipfs-gateway.v8-bellecour.iex.ec" ++ url,
           "https://gateway.ipfs.io" ++ url,
           "https://gateway.pinata.cloud" ++ url])) ∧
    (fetch ("https://ipfs-gateway.v8-bellecour.iex.ec" ++ url) = none →
      fetch ("https://gateway.ipfs.io" ++ url) = none →
      fetch ("https://gateway.pinata.cloud" ++ url) = none →
      download_encrypted_dataset fetch digestOfBytes multiaddrOk args =
        some (.error .PreComputeDatasetDownloadFailed,
          ["https://ipfs-gateway.v8-bellecour.iex.ec" ++ url,
           "https://gateway.ipfs.io" ++ url,
           "https://gateway.pinata.cloud" ++ url])) := by
  refine ⟨?_, ?_, ?_, ?_⟩
  · intro bs h1 hck
    simp [download_encrypted_dataset, tryGateways, IPFS_GATEWAYS, hurl,
      hmulti, hsum, h1, hck]
  · intro bs h1 h2 hck
    simp [download_encrypted_dataset, tryGateways, IPFS_GATEWAYS, hurl,
      hmulti, hsum, h1, h2, hck]
  · intro bs h1 h2 h3 hck
    simp [download_encrypted_dataset, tryGateways, IPFS_GATEWAYS, hurl,
      hmulti, hsum, h1, h2, h3, hck]
  · intro h1 h2 h3
    simp [download_encrypted_dataset, tryGateways, IPFS_GATEWAYS, hurl,
      hmulti, hsum, h1, h2, h3]

/-- Witness for c8_gateway_fallback_in_declared_order: the first gateway
fails, the second returns the bytes, the third is never consulted. -/
theorem c8_gateway_fallback_witness :
    download_encrypted_dataset
      (fun s => if s = "https://gateway.ipfs.io/ipfs/Qm" then some [7]
                else none)
      (fun _ => "d") (fun _ => true)
      { output_dir := "", is_dataset_required := true,
        encrypted_dataset_url := some "/ipfs/Qm",
        encrypted_dataset_base64_key := none,
        encrypted_dataset_checksum := some "0xd",
        plain_dataset_filename := none, input_files := [] } =
      some (.ok [7],
        ["https://ipfs-gateway.v8-bellecour.iex.ec" ++ "/ipfs/Qm",
         "https://gateway.ipfs.io" ++ "/ipfs/Qm"]) :=
  (c8_gateway_fallback_in_declared_order
    (fun s => if s = "https://gateway.ipfs.io/ipfs/Qm" then some [7]
              else none)
    (fun _ => "d") (fun _ => true) _ "/ipfs/Qm" "0xd" rfl (by decide)
    rfl).2.1 [7] (by decide) (by decide) (by decide)

/-- Modelled from the spec's words for claim C3: a case-insensitive hex
comparison after removing any 0x prefix from either side. -/
def specChecksumEq (a b : String) : Bool :=
  (removeHex0x a.toList).map Char.toLower ==
    (removeHex0x b.toList).map Char.toLower

/-- Claim C3 fails on the code: for downloaded bytes whose digest is ab and
a configured checksum AB — equal under the claim's case-insensitive,
prefix-stripping comparison — download_encrypted_dataset still returns the
invalid-checksum cause, because the source compares the configured string
with the 0x-prefixed lowercase digest by plain string equality. -/
theorem c3_counterexample_comparison_not_case_insensitive :
    specChecksumEq (sha256_from_bytes (fun _ => "ab") [0]) "AB" = true ∧
    download_encrypted_dataset (fun _ => some [0]) (fun _ => "ab")
      (fun _ => false)
      { output_dir := "", is_dataset_required := true,
        encrypted_dataset_url := some "http://u",
        encrypted_dataset_base64_key := none,
        encrypted_dataset_checksum := some "AB",
        plain_dataset_filename := none, input_files := [] } =
      some (.error .PreComputeInvalidDatasetChecksum, ["http://u"]) := by
  exact ⟨by decide, rfl⟩

/-- Claim C3 amended: download_encrypted_dataset accepts downloaded bytes
if and only if the configured checksum string equals, by plain
case-sensitive string equality, the 0x-prefixed lowercase hex SHA-256
digest of the bytes (sha256_from_bytes); on mismatch it returns the
invalid-checksum cause, and the run never invokes decryption after any
dataset-download error. -/
theorem c3_amended_checksum_exact_string_equality
    (fetch : String → Option (List Nat))
    (digestOfBytes : List Nat → String) (multiaddrOk : String → Bool)
    (args : PreComputeArgs) (url expected : String)
    (hurl : args.encrypted_dataset_url = some url)
    (hmulti : is_multi_address multiaddrOk url = false)
    (hsum : args.encrypted_dataset_checksum = some expected) :
    (∀ bs, fetch url = some bs →
      ((download_encrypted_dataset fetch digestOfBytes multiaddrOk args =
          some (.ok bs, [url])) ↔
        expected = sha256_from_bytes digestOfBytes bs) ∧
      (sha256_from_bytes digestOfBytes bs ≠ expected →
        download_encrypted_dataset fetch digestOfBytes multiaddrOk args =
          some (.error .PreComputeInvalidDatasetChecksum, [url]))) ∧
    (∀ (env : Env) (digestOfString : String → String)
        (blockDec : List Nat → List Nat → List Nat)
        (base64Decode : String → Option (List Nat))
        (isDir writeOk dlOk : String → Bool)
        (args2 : PreComputeArgs) (e : ReplicateStatusCause)
        (t : List String),
      read_args env = .ok args2 → isDir args2.output_dir = true →
      args2.is_dataset_required = true →
      download_encrypted_dataset fetch digestOfBytes multiaddrOk args2 =
        some (.error e, t) →
      runApp env fetch digestOfString digestOfBytes multiaddrOk blockDec
        base64Decode isDir writeOk dlOk = some (.error e, false)) := by
  constructor
  · intro bs hbs
    constructor
    · constructor
      · intro hok
        by_cases hc : sha256_from_bytes digestOfBytes bs = expected
        · exact hc.symm
        · simp [download_encrypted_dataset, hurl, hmulti, hsum, hbs,
            hc] at hok
      · intro hc
        simp [download_encrypted_dataset, hurl, hmulti, hsum, hbs, ← hc]
    · intro hc
      simp [download_encrypted_dataset, hurl, hmulti, hsum, hbs, hc]
  · intro env digestOfString blockDec base64Decode isDir writeOk dlOk
      args2 e t hread hdir hreq hdl
    simp [runApp, hread, hdir, hreq, hdl]

/-- Witness for c3_amended_checksum_exact_string_equality: with the
configured checksum exactly the 0x-prefixed lowercase digest, the bytes
are accepted. -/
theorem c3_amended_checksum_exact_witness :
    download_encrypted_dataset (fun _ => some [0]) (fun _ => "ab")
      (fun _ => false)
      { output_dir := "", is_dataset_required := true,
        encrypted_dataset_url := some "http://u",
        encrypted_dataset_base64_key := none,
        encrypted_dataset_checksum := some "0xab",
        plain_dataset_filename := none, input_files := [] } =
      some (.ok [0], ["http://u"]) :=
  ((c3_amended_checksum_exact_string_equality (fun _ => some [0])
    (fun _ => "ab") (fun _ => false) _ "http://u" "0xab" rfl (by decide)
    rfl).1 [0] rfl).1.mpr (by decide)

theorem u8FromStrRadix16_single_bad {c : Char}
    (h1 : isHexDigitChar c = false) (h2 : c ≠ '+') :
    u8FromStrRadix16 [c] = none := by
  simp [u8FromStrRadix16, hexDigitsToNat, h1, h2]

theorem u8FromStrRadix16_pair_bad (c1 c2 : Char)
    (h : (isHexDigitChar c1 = false ∧ c1 ≠ '+') ∨
      isHexDigitChar c2 = false) :
    u8FromStrRadix16 [c1, c2] = none := by
  by_cases hp : c1 = '+'
  · subst hp
    rcases h with ⟨h1, h2⟩ | h2
    · exact absurd rfl h2
    · simp [u8FromStrRadix16, hexDigitsToNat, h2]
  · rcases h with ⟨h1, h2⟩ | h2
    · simp [u8FromStrRadix16, hexDigitsToNat, hp, h1]
    · simp [u8FromStrRadix16, hexDigitsToNat, hp, h2]

theorem hexPairsToBytes_bad :
    ∀ (n : Nat) (l : List Char), l.length ≤ n →
      (∃ c ∈ l, isHexDigitChar c = false ∧ c ≠ '+') →
      hexPairsToBytes l = none := by
  intro n
  induction n with
  | zero =>
    intro l hlen hex
    have : l = [] := List.eq_nil_of_length_eq_zero (by omega)
    subst this
    simp at hex
  | succ k ih =>
    intro l hlen hex
    match l with
    | [] => simp at hex
    | [c0] => rfl
    | c1 :: c2 :: rest =>
      obtain ⟨c, hc, hbad⟩ := hex
      rcases List.mem_cons.mp hc with hceq | hc2
      · subst hceq
        have hu := u8FromStrRadix16_pair_bad c c2 (Or.inl hbad)
        cases hr : hexPairsToBytes rest <;>
          simp [hexPairsToBytes, hu, hr]
      · rcases List.mem_cons.mp hc2 with hceq | hcr
        · subst hceq
          have hu := u8FromStrRadix16_pair_bad c1 c (Or.inr hbad.1)
          cases hr : hexPairsToBytes rest <;>
            simp [hexPairsToBytes, hu, hr]
        · have hlen2 : rest.length ≤ k := by
            simp only [List.length_cons] at hlen; omega
          have hr := ih rest hlen2 ⟨c, hcr, hbad⟩
          cases hu : u8FromStrRadix16 [c1, c2] <;>
            simp [hexPairsToBytes, hu, hr]

theorem hex_string_to_byte_array_bad (input : String)
    (h : ∃ c ∈ removeHex0x input.toList,
      isHexDigitChar c = false ∧ c ≠ '+') :
    hex_string_to_byte_array input = none := by
  obtain ⟨c, hc, hbad⟩ := h
  cases hl : removeHex0x input.toList with
  | nil => rw [hl] at hc; cases hc
  | cons c0 rest =>
    rw [hl] at hc
    simp only [hex_string_to_byte_array, hl]
    by_cases hodd : (c0 :: rest).length % 2 = 1
    · rw [if_pos hodd]
      rcases List.mem_cons.mp hc with hceq | hcr
      · subst hceq
        have h0 := u8FromStrRadix16_single_bad hbad.1 hbad.2
        cases hr : hexPairsToBytes rest <;> simp [h0, hr]
      · have hr := hexPairsToBytes_bad rest.length rest le_rfl
          ⟨c, hcr, hbad⟩
        cases hu : u8FromStrRadix16 [c0] <;> simp [hu, hr]
    · rw [if_neg hodd]
      exact hexPairsToBytes_bad (c0 :: rest).length _ le_rfl ⟨c, hc, hbad⟩

/-- Claim C10 fails as universally stated: the character + is not a hex
digit, yet hex_string_to_byte_array("+f") does not panic — it returns the
single byte 15, because u8::from_str_radix accepts an optional leading
plus sign in a 2-character group — and get_challenge on the task id +f
(with both signer variables set and a working signer) returns a signature
instead of panicking. -/
theorem c10_counterexample_plus_sign_group_parses :
    isHexDigitChar '+' = false ∧
    hex_string_to_byte_array "+f" = some [15] ∧
    get_challenge (fun bs => bs) (fun _ => some ())
      (fun _ _ => some "0xsig")
      { iexecPreComputeOut := none, isDatasetRequired := none,
        iexecDatasetUrl := none, iexecDatasetKey := none,
        iexecDatasetChecksum := none, iexecDatasetFilename := none,
        iexecInputFilesNumber := none, inputFileUrl := fun _ => none,
        iexecTaskId := some "+f", signWorkerAddress := some "0xab",
        signTeeChallengePrivateKey := some "0xkey" } "+f" =
      some (.ok "0xsig") := by
  exact ⟨rfl, rfl, rfl⟩

/-- Claim C10 amended: hex_string_to_byte_array panics (expect on a failed
radix parse, modelled as none) whenever the input, after removing the
optional 0x prefix, contains a character that is neither a hex digit nor a
plus sign — a plus sign can begin an accepted 2-character group, so the
original any-non-hex-character phrasing is slightly too strong —
and consequently get_challenge, the failure-reporting path, panics instead
of returning a FailureCause whenever the chain task id or the worker
address contains such a character. -/
theorem c10_amended_hex_panic_on_non_hex_non_sign :
    (∀ (input : String) (c : Char), c ∈ removeHex0x input.toList →
      isHexDigitChar c = false → c ≠ '+' →
      hex_string_to_byte_array input = none) ∧
    (∀ {Signer : Type} (keccak256 : List Nat → List Nat)
        (parseKey : String → Option Signer)
        (signMessage : Signer → List Nat → Option String) (env : Env)
        (chainTaskId w k : String),
      env.signWorkerAddress = some w → w ≠ "" →
      env.signTeeChallengePrivateKey = some k → k ≠ "" →
      ((∃ c ∈ removeHex0x chainTaskId.toList,
          isHexDigitChar c = false ∧ c ≠ '+') ∨
       (∃ c ∈ removeHex0x w.toList,
          isHexDigitChar c = false ∧ c ≠ '+')) →
      get_challenge keccak256 parseKey signMessage env chainTaskId =
        none) := by
  constructor
  · intro input c hc h1 h2
    exact hex_string_to_byte_array_bad input ⟨c, hc, h1, h2⟩
  · intro Signer keccak256 parseKey signMessage env chainTaskId w k
      hw hwne hk hkne hbad
    rcases hbad with hbad | hbad
    · have htid : hex_string_to_byte_array chainTaskId = none :=
        hex_string_to_byte_array_bad chainTaskId hbad
      simp [get_challenge, getEnvVarOrError, hw, hwne, hk, hkne,
        concatenate_and_hash, List.mapM, List.mapM.loop, htid]
    · have haddr : hex_string_to_byte_array w = none :=
        hex_string_to_byte_array_bad w hbad
      cases htid : hex_string_to_byte_array chainTaskId <;>
        simp [get_challenge, getEnvVarOrError, hw, hwne, hk, hkne,
          concatenate_and_hash, List.mapM, List.mapM.loop, htid, haddr]

/-- Witness for c10_amended_hex_panic_on_non_hex_non_sign at the input
zz. -/
theorem c10_amended_hex_panic_witness :
    hex_string_to_byte_array "zz" = none :=
  c10_amended_hex_panic_on_non_hex_non_sign.1 "zz" 'z' (by decide)
    (by decide) (by decide)

theorem zipWith_xor_cancel :
    ∀ (a b : List Nat), a.length = b.length →
      List.zipWith Nat.xor (List.zipWith Nat.xor a b) b = a := by
  intro a
  induction a with
  | nil => intro b _; simp
  | cons x xs ih =>
    intro b h
    cases b with
    | nil => simp at h
    | cons y ys =>
      simp only [List.zipWith_cons_cons]
      have hx : Nat.xor (Nat.xor x y) y = x := Nat.xor_cancel_right y x
      rw [hx, ih ys (by simpa using h)]

theorem flatten_chunks16 :
    ∀ (n : Nat) (l : List Nat), l.length ≤ n →
      (chunks16 l).flatten = l := by
  intro n
  induction n with
  | zero =>
    intro l h
    have hl : l = [] := List.eq_nil_of_length_eq_zero (by omega)
    subst hl
    rw [chunks16]
    simp
  | succ k ih =>
    intro l h
    by_cases hl : l = []
    · subst hl; rw [chunks16]; simp
    · rw [chunks16, dif_neg hl]
      simp only [List.flatten_cons]
      rw [ih (l.drop 16) (by simp [List.length_drop]; omega)]
      exact List.take_append_drop 16 l

theorem chunks16_all_length :
    ∀ (n : Nat) (l : List Nat), l.length ≤ n → l.length % 16 = 0 →
      ∀ b ∈ chunks16 l, b.length = 16 := by
  intro n
  induction n with
  | zero =>
    intro l h _ b hb
    have hl : l = [] := List.eq_nil_of_length_eq_zero (by omega)
    subst hl
    rw [chunks16] at hb
    simp at hb
  | succ k ih =>
    intro l h hmod b hb
    by_cases hl : l = []
    · subst hl; rw [chunks16] at hb; simp at hb
    · rw [chunks16, dif_neg hl] at hb
      have hpos : 0 < l.length := List.length_pos.mpr hl
      have h16 : 16 ≤ l.length := by omega
      rcases List.mem_cons.mp hb with hbeq | hbr
      · subst hbeq; simp [List.length_take]; omega
      · exact ih (l.drop 16) (by simp [List.length_drop]; omega)
          (by simp [List.length_drop]; omega) b hbr

theorem chunks16_flatten_of_uniform :
    ∀ (bss : List (List Nat)), (∀ b ∈ bss, b.length = 16) →
      chunks16 bss.flatten = bss := by
  intro bss
  induction bss with
  | nil => intro _; rw [List.flatten_nil, chunks16]; simp
  | cons b bs ih =>
    intro hall
    have hb : b.length = 16 := hall b (by simp)
    have hbne : b ++ bs.flatten ≠ [] := by
      intro hcon
      have hb0 : b = [] := (List.append_eq_nil.mp hcon).1
      rw [hb0] at hb
      simp at hb
    simp only [List.flatten_cons]
    rw [chunks16, dif_neg hbne]
    have ht : (b ++ bs.flatten).take 16 = b := by
      rw [← hb]; exact List.take_left b _
    have hd : (b ++ bs.flatten).drop 16 = bs.flatten := by
      rw [← hb]; exact List.drop_left b _
    rw [ht, hd, ih (fun x hx => hall x (List.mem_cons_of_mem b hx))]

theorem cbcEncryptBlocks_length
    (blockEnc : List Nat → List Nat → List Nat) (key : List Nat)
    (henclen : ∀ k b, b.length = 16 → (blockEnc k b).length = 16) :
    ∀ (ps : List (List Nat)) (prev : List Nat),
      (∀ p ∈ ps, p.length = 16) → prev.length = 16 →
      ∀ c ∈ cbcEncryptBlocks blockEnc key prev ps, c.length = 16 := by
  intro ps
  induction ps with
  | nil => intro prev _ _ c hc; simp [cbcEncryptBlocks] at hc
  | cons p pt ih =>
    intro prev hall hprev c hc
    have hp : p.length = 16 := hall p (by simp)
    have hxlen : (List.zipWith Nat.xor p prev).length = 16 := by
      rw [List.length_zipWith, hp, hprev]; simp
    have hclen := henclen key _ hxlen
    simp only [cbcEncryptBlocks] at hc
    rcases List.mem_cons.mp hc with hceq | hcr
    · subst hceq; exact hclen
    · exact ih (blockEnc key (List.zipWith Nat.xor p prev))
        (fun x hx => hall x (List.mem_cons_of_mem p hx)) hclen c hcr

theorem cbc_roundtrip_blocks
    (blockEnc blockDec : List Nat → List Nat → List Nat)
    (key : List Nat)
    (hinv : ∀ k b, blockDec k (blockEnc k b) = b)
    (henclen : ∀ k b, b.length = 16 → (blockEnc k b).length = 16) :
    ∀ (ps : List (List Nat)) (prev : List Nat),
      (∀ p ∈ ps, p.length = 16) → prev.length = 16 →
      cbcDecryptBlocks blockDec key (cbcEncryptBlocks blockEnc key prev ps)
        (prev :: cbcEncryptBlocks blockEnc key prev ps) = ps := by
  intro ps
  induction ps with
  | nil => intro prev _ _; simp [cbcEncryptBlocks, cbcDecryptBlocks]
  | cons p pt ih =>
    intro prev hall hprev
    have hp : p.length = 16 := hall p (by simp)
    have hxlen : (List.zipWith Nat.xor p prev).length = 16 := by
      rw [List.length_zipWith, hp, hprev]; simp
    have hclen := henclen key _ hxlen
    have ihc := ih (blockEnc key (List.zipWith Nat.xor p prev))
      (fun x hx => hall x (List.mem_cons_of_mem p hx)) hclen
    simp only [cbcEncryptBlocks, cbcDecryptBlocks,
      List.zipWith_cons_cons] at ihc ⊢
    rw [hinv, zipWith_xor_cancel p prev (by rw [hp, hprev])]
    exact congrArg (List.cons p) ihc

theorem flatten_length_mod (cs : List (List Nat))
    (h : ∀ c ∈ cs, c.length = 16) : cs.flatten.length % 16 = 0 := by
  induction cs with
  | nil => simp
  | cons c ct ih =>
    simp only [List.flatten_cons, List.length_append]
    have hc := h c (by simp)
    have hct := ih (fun x hx => h x (List.mem_cons_of_mem c hx))
    omega

theorem pkcs7Pad_length_mod (b : List Nat) :
    (pkcs7Pad b).length % 16 = 0 := by
  simp only [pkcs7Pad, List.length_append, List.length_replicate]
  omega

theorem pkcs7Unpad_pad (b : List Nat) : pkcs7Unpad (pkcs7Pad b) = some b := by
  have hp1 : 1 ≤ 16 - b.length % 16 := by omega
  have hp16 : 16 - b.length % 16 ≤ 16 := by omega
  obtain ⟨k, hk⟩ : ∃ k, 16 - b.length % 16 = k + 1 :=
    ⟨16 - b.length % 16 - 1, by omega⟩
  have hlast : (pkcs7Pad b).getLast? = some (16 - b.length % 16) := by
    simp only [pkcs7Pad]
    rw [hk, List.replicate_succ', ← List.append_assoc]
    exact List.getLast?_concat _
  have hlen : (pkcs7Pad b).length = b.length + (16 - b.length % 16) := by
    simp [pkcs7Pad]
  simp only [pkcs7Unpad, hlast]
  rw [if_pos]
  · rw [hlen]
    have harith : b.length + (16 - b.length % 16) - (16 - b.length % 16) =
        b.length := by omega
    rw [harith]
    simp only [pkcs7Pad]
    rw [List.take_left b _]
  · refine ⟨hp1, hp16, by rw [hlen]; omega, ?_⟩
    rw [hlen]
    have harith : b.length + (16 - b.length % 16) - (16 - b.length % 16) =
        b.length := by omega
    rw [harith]
    simp only [pkcs7Pad]
    rw [List.drop_left b _]
    simp [List.all_eq_true, List.mem_replicate]

/-- Claim C9: decryption round-trip. For every plaintext, 32-byte key and
16-byte IV, decrypt_dataset — with the key configured as a base64 string
that decodes to the key — applied to IV ++ AES-256-CBC-PKCS7-encrypt(key,
IV, plaintext) returns exactly the original plaintext. The AES block
cipher enters as an abstract pair (blockEnc, blockDec) with the inverse
and block-size properties the aes crate guarantees; the CBC chaining and
PKCS#7 padding on both sides are concrete. -/
theorem c9_decrypt_dataset_roundtrip
    (blockEnc blockDec : List Nat → List Nat → List Nat)
    (hinv : ∀ k b, blockDec k (blockEnc k b) = b)
    (henclen : ∀ k b, b.length = 16 → (blockEnc k b).length = 16)
    (base64Decode : String → Option (List Nat)) (keyStr : String)
    (key : List Nat) (hdec : base64Decode keyStr = some key)
    (hklen : key.length = 32) (iv : List Nat) (hiv : iv.length = 16)
    (plaintext : List Nat) (args : PreComputeArgs)
    (hkey : args.encrypted_dataset_base64_key = some keyStr) :
    decrypt_dataset blockDec base64Decode args
      (iv ++ cbcEncrypt blockEnc key iv plaintext) =
      some (.ok plaintext) := by
  have hps := chunks16_all_length (pkcs7Pad plaintext).length
    (pkcs7Pad plaintext) le_rfl (pkcs7Pad_length_mod plaintext)
  have hcs := cbcEncryptBlocks_length blockEnc key henclen
    (chunks16 (pkcs7Pad plaintext)) iv hps hiv
  have hctmod : (cbcEncrypt blockEnc key iv plaintext).length % 16 = 0 := by
    simp only [cbcEncrypt]
    exact flatten_length_mod _ hcs
  have hnlt : ¬((iv ++ cbcEncrypt blockEnc key iv plaintext).length < 16 ∨
      key.length ≠ 32) := by
    push_neg
    exact ⟨by simp [List.length_append, hiv], hklen⟩
  have htake : (iv ++ cbcEncrypt blockEnc key iv plaintext).take 16 = iv := by
    rw [← hiv]; exact List.take_left iv _
  have hdrop : (iv ++ cbcEncrypt blockEnc key iv plaintext).drop 16 =
      cbcEncrypt blockEnc key iv plaintext := by
    rw [← hiv]; exact List.drop_left iv _
  have hcbc : cbcDecrypt blockDec key iv
      (cbcEncrypt blockEnc key iv plaintext) = some plaintext := by
    simp only [cbcDecrypt]
    rw [if_pos hctmod]
    simp only [cbcEncrypt]
    rw [chunks16_flatten_of_uniform _ hcs]
    rw [cbc_roundtrip_blocks blockEnc blockDec key hinv henclen _ iv hps
      hiv]
    rw [flatten_chunks16 (pkcs7Pad plaintext).length _ le_rfl]
    exact pkcs7Unpad_pad plaintext
  simp only [decrypt_dataset, hkey, hdec]
  rw [if_neg hnlt]
  rw [htake, hdrop, hcbc]

/-- Witness for c9_decrypt_dataset_roundtrip with the identity block
cipher, the all-zero 32-byte key and 16-byte IV, and plaintext 1,2,3. -/
theorem c9_decrypt_dataset_roundtrip_witness :
    decrypt_dataset (fun _ b => b) (fun _ => some (List.replicate 32 0))
      { output_dir := "", is_dataset_required := true,
        encrypted_dataset_url := none,
        encrypted_dataset_base64_key := some "a2V5",
        encrypted_dataset_checksum := none,
        plain_dataset_filename := none, input_files := [] }
      (List.replicate 16 0 ++
        cbcEncrypt (fun _ b => b) (List.replicate 32 0)
          (List.replicate 16 0) [1, 2, 3]) = some (.ok [1, 2, 3]) :=
  c9_decrypt_dataset_roundtrip (fun _ b => b) (fun _ b => b)
    (fun _ _ => rfl) (fun _ _ h => h) (fun _ => some (List.replicate 32 0))
    "a2V5" (List.replicate 32 0) rfl (by simp) (List.replicate 16 0)
    (by simp) [1, 2, 3] _ rfl
